import Mathlib

/-!
Verification model of `pyqtgraph/graphicsItems/BoxplotItem.py`.

Python floats are modelled by `ℚ` (the spec puts NaN/inf out of contract).
`np.percentile` uses its default linear-interpolation semantics; `np.sort`
is modelled by `List.insertionSort` (any stable comparison sort yields the
same sorted list of rationals).
-/

namespace Boxplot

/-- Model of `np.sort` / the sorted view used by `np.percentile`. -/
def npSort (data : List ℚ) : List ℚ := List.insertionSort (· ≤ ·) data

/-- Linear interpolation at fractional index `h` into the sorted list `s`
(the core of `np.percentile(..., interpolation='linear')`). -/
def interpAt (s : List ℚ) (h : ℚ) : ℚ :=
  let i : ℕ := ⌊h⌋₊
  let lo : ℚ := s.getD i 0
  let hi : ℚ := s.getD (min (i + 1) (s.length - 1)) 0
  lo + (h - (i : ℚ)) * (hi - lo)

/-- Model of `np.percentile(data, q)` with linear interpolation:
fractional index `(n-1)·q/100` into the sorted data. -/
def percentile (data : List ℚ) (q : ℚ) : ℚ :=
  interpAt (npSort data) (((data.length : ℚ) - 1) * q / 100)

/-- The `upper_theory` fence of `IQR_1p5`: `p75 + 1.5 * (p75 - p25)`. -/
def upper_theory (data : List ℚ) : ℚ :=
  percentile data 75 + 3/2 * (percentile data 75 - percentile data 25)

/-- The `lower_theory` fence of `IQR_1p5`: `p25 - 1.5 * (p75 - p25)`. -/
def lower_theory (data : List ℚ) : ℚ :=
  percentile data 25 - 3/2 * (percentile data 75 - percentile data 25)

/-- Model of `IQR_1p5` (BoxplotItem.py lines 13–24): 1.5·IQR whisker policy.
`upper = np.max(data[data <= upper_theory])`, `lower = np.min(data[data >= lower_theory])`;
`none` models the `ValueError` that `np.max`/`np.min` raise on an empty selection. -/
def IQR_1p5 (data : List ℚ) : Option (ℚ × ℚ) :=
  match (data.filter (fun x => x ≤ upper_theory data)).max?,
        (data.filter (fun x => lower_theory data ≤ x)).min? with
  | some u, some l => some (l, u)
  | _, _ => none

/-! ## Qt geometry primitives -/

/-- Model of `QRectF`: origin `(x, y)`, size `(w, h)`. -/
structure RectF where
  x : ℚ
  y : ℚ
  w : ℚ
  h : ℚ
deriving DecidableEq, Repr

/-- `QRectF()`: the null rectangle. -/
def RectF.null : RectF := ⟨0, 0, 0, 0⟩

/-- `QRectF.isNull()`: both width and height are zero. -/
def RectF.isNull (r : RectF) : Bool := r.w == 0 && r.h == 0

def RectF.left (r : RectF) : ℚ := r.x

def RectF.right (r : RectF) : ℚ := r.x + r.w

def RectF.top (r : RectF) : ℚ := r.y

def RectF.bottom (r : RectF) : ℚ := r.y + r.h

/-- `QRectF.operator|` (used by `|=`): bounding rectangle of the two operands,
ignoring a null operand, and normalising negative widths/heights as Qt does. -/
def RectF.unite (a b : RectF) : RectF :=
  if a.isNull then b
  else if b.isNull then a
  else
    let l1 := min a.x (a.x + a.w)
    let r1 := max a.x (a.x + a.w)
    let t1 := min a.y (a.y + a.h)
    let b1 := max a.y (a.y + a.h)
    let l2 := min b.x (b.x + b.w)
    let r2 := max b.x (b.x + b.w)
    let t2 := min b.y (b.y + b.h)
    let b2 := max b.y (b.y + b.h)
    ⟨min l1 l2, min t1 t2, max r1 r2 - min l1 l2, max b1 b2 - min t1 t2⟩

/-- `QRectF.adjusted(dx1, dy1, dx2, dy2)`. -/
def RectF.adjusted (r : RectF) (dx1 dy1 dx2 dy2 : ℚ) : RectF :=
  ⟨r.x + dx1, r.y + dy1, r.w + dx2 - dx1, r.h + dy2 - dy1⟩

/-- Model of a `QPen` as far as the item reads it: `widthF()` and `isCosmetic()`. -/
structure Pen where
  widthF : ℚ
  cosmetic : Bool
deriving DecidableEq, Repr

def Pen.isCosmetic (p : Pen) : Bool := p.cosmetic

/-- `fn.mkPen("y")` / `fn.mkPen("r")`: a width-1 pen (Qt default, not cosmetic). -/
def defaultPen : Pen := ⟨1, false⟩

/-! ## Python-value model for whisker functions -/

/-- The Python exception classes the item can raise or catch. -/
inductive PyExc where
  | typeError
  | valueError
  | attributeError
  | indexError
  | zeroDivisionError
deriving DecidableEq, Repr

/-- A Python object as far as `validateWhiskerFunc` inspects one: a number
(`int`/`float`/`np.number`) or anything else. -/
inductive PyObj where
  | num : ℚ → PyObj
  | nonNum : PyObj
deriving DecidableEq, Repr

/-- What a whisker-function call returns: an iterable of objects, or a
non-iterable object. -/
inductive PyRet where
  | iter : List PyObj → PyRet
  | nonIter : PyRet
deriving DecidableEq, Repr

/-- A user-supplied whisker function, given by its behaviour (return value or
raised exception) on every 1-D sample. A non-callable object is modelled by a
function raising `TypeError` on every call. -/
structure WFunc where
  call : List ℚ → Except PyExc PyRet

/-- `isNumber` from `validateWhiskerFunc`. -/
def isNumber : PyObj → Bool
  | .num _ => true
  | .nonNum => false

/-- Tuple unpacking `l, h = ret`: `TypeError` on a non-iterable value,
`ValueError` unless there are exactly two elements. -/
def unpack2 : PyRet → Except PyExc (PyObj × PyObj)
  | .nonIter => .error .typeError
  | .iter [a, b] => .ok (a, b)
  | .iter _ => .error .valueError

/-- Model of `validateWhiskerFunc` (lines 27–39): probe the function on
`[1, 2, 3]`; the `try` block catches only `TypeError` and `ValueError`,
so any other exception propagates (`.error`). -/
def validateWhiskerFunc (f : WFunc) : Except PyExc Bool :=
  match f.call [1, 2, 3] with
  | .error e =>
    if e = .typeError ∨ e = .valueError then .ok false else .error e
  | .ok r =>
    match unpack2 r with
    | .error e => if e = .typeError ∨ e = .valueError then .ok false else .error e
    | .ok (l, h) => .ok (isNumber l && isNumber h)

/-- `IQR_1p5` wrapped as a whisker-function value: it returns a pair of numbers,
or raises `ValueError` (from `np.max`/`np.min` of an empty selection). -/
def IQR_WFunc : WFunc :=
  ⟨fun ds =>
    match IQR_1p5 ds with
    | some (l, u) => .ok (.iter [.num l, .num u])
    | none => .error .valueError⟩

/-- `lower, upper = self.whiskerFunc(dataset)` together with the subsequent
numeric use of `lower`/`upper` (numpy comparisons raise `TypeError` on
non-numeric operands). -/
def callWhisker (f : WFunc) (ds : List ℚ) : Except PyExc (ℚ × ℚ) := do
  let r ← f.call ds
  let lu ← unpack2 r
  match lu with
  | (.num lq, .num uq) => .ok (lq, uq)
  | _ => .error .typeError

/-! ## Options and item state -/

/-- The `data` option once present: a 2-D-like structure (`np.ndarray` or list
of samples), or any other object (fails the `isinstance` test of
`generatePicture` and is not iterable in `calculateDataBounds`). -/
inductive PyData where
  | samples : List (List ℚ) → PyData
  | nonList : PyData
deriving DecidableEq

/-- `self.opts` (lines 45–58). `loc = none` covers both `None` and any non-list
value (both fall through to the `np.arange` branch). Opaque style resources
(brushes, symbols) carry no information the item reads back. -/
structure Opts where
  loc : Option (List ℚ)
  data : Option PyData
  locAsX : Bool
  width : Option ℚ
  pen : Option Pen
  brush : Option Unit
  medianPen : Option Pen
  outlier : Bool
  symbol : Option Unit
  symbolSize : Option ℚ
  symbolPen : Option Unit
  symbolBrush : Option Unit

/-- The option defaults installed by `__init__`. -/
def defaultOpts : Opts :=
  ⟨none, none, true, none, none, none, none, true, none, none, none, none⟩

/-- A `**opts` keyword-argument set for `setData`: `none` = key not passed. -/
structure OptsPatch where
  loc : Option (Option (List ℚ))
  data : Option (Option PyData)
  locAsX : Option Bool
  width : Option (Option ℚ)
  pen : Option (Option Pen)
  brush : Option (Option Unit)
  medianPen : Option (Option Pen)
  outlier : Option Bool
  symbol : Option (Option Unit)
  symbolSize : Option (Option ℚ)
  symbolPen : Option (Option Unit)
  symbolBrush : Option (Option Unit)

/-- The empty keyword-argument set (`setData()`). -/
def OptsPatch.empty : OptsPatch :=
  ⟨none, none, none, none, none, none, none, none, none, none, none, none⟩

/-- `self.opts.update(opts)`: provided keys overwrite, others are retained. -/
def updateOpts (o : Opts) (p : OptsPatch) : Opts where
  loc := p.loc.getD o.loc
  data := p.data.getD o.data
  locAsX := p.locAsX.getD o.locAsX
  width := p.width.getD o.width
  pen := p.pen.getD o.pen
  brush := p.brush.getD o.brush
  medianPen := p.medianPen.getD o.medianPen
  outlier := p.outlier.getD o.outlier
  symbol := p.symbol.getD o.symbol
  symbolSize := p.symbolSize.getD o.symbolSize
  symbolPen := p.symbolPen.getD o.symbolPen
  symbolBrush := p.symbolBrush.getD o.symbolBrush

/-- Host notifications emitted by the item (scene-graph base-class hooks). -/
inductive HostEvent where
  | prepareGeometryChange
  | informViewBoundsChanged
deriving DecidableEq, Repr

/-- One recorded draw operation of the cached `QPicture`. A `marker` stands for
the `resetTransform`/`translate`/`scale`/`drawPath` stamp of one outlier symbol
at a mapped data point. -/
inductive DrawCmd where
  | line (p1 p2 : ℚ × ℚ)
  | rect (r : RectF)
  | marker (center : ℚ × ℚ) (size : ℚ)
deriving DecidableEq, Repr

/-- The replayable contents of the cached `QPicture`. -/
abbrev Picture := List DrawCmd

/-- The mutable state of a `BoxplotItem`. `boxBounds`/`pixelPadding` model the
Python attributes `_boxBounds`/`_pixelPadding`; `none` means the attribute was
never assigned (reading it raises `AttributeError`). -/
structure ItemState where
  opts : Opts
  whiskerFunc : WFunc
  picture : Option Picture
  outlierData : List (ℚ × List ℚ)
  boxBounds : Option RectF
  pixelPadding : Option ℚ

/-- Model of `BoxplotItem.setData` (lines 62–90): merge the keyword arguments
into `self.opts`, drop the cached picture and outlier map, and notify the host.
Returns the new state and the notifications emitted. -/
def setData (st : ItemState) (p : OptsPatch) : ItemState × List HostEvent :=
  ({ st with
      opts := updateOpts st.opts p
      picture := none
      outlierData := [] },
   [HostEvent.prepareGeometryChange, HostEvent.informViewBoundsChanged])

/-- Model of `BoxplotItem.setWhiskerFunc` (lines 92–103). The `Bool` says
whether the function was installed; `false` means it was rejected and a message
printed. An exception uncaught by `validateWhiskerFunc` propagates. -/
def setWhiskerFunc (st : ItemState) (f : WFunc) : Except PyExc (ItemState × Bool) :=
  match validateWhiskerFunc f with
  | .error e => .error e
  | .ok true =>
    .ok ({ st with whiskerFunc := f, picture := none, outlierData := [] }, true)
  | .ok false => .ok (st, false)

/-- Model of `BoxplotItem.__init__(**opts)`: install `IQR_1p5`, then `setData`.
`_boxBounds`/`_pixelPadding` start unassigned. -/
def initState (p : OptsPatch) : ItemState :=
  let st0 : ItemState := ⟨defaultOpts, IQR_WFunc, none, [], none, none⟩
  match setWhiskerFunc st0 IQR_WFunc with
  | .ok (st1, _) => (setData st1 p).1
  | .error _ => st0

/-! ## Geometry building -/

/-- `dataset[np.logical_or(dataset < lower, dataset > upper)]`. -/
def outlierValues (ds : List ℚ) (lower upper : ℚ) : List ℚ :=
  ds.filter (fun x => x < lower ∨ x > upper)

/-- The whisker-cap, whisker-stem, box and median draw ops of one sample
(lines 177–200), in source order. -/
def whiskerBoxCmds (locAsX : Bool) (pos width lower upper p25 p75 median : ℚ) :
    List DrawCmd :=
  if locAsX then
    [ .line (pos - width/4, upper) (pos + width/4, upper),
      .line (pos - width/4, lower) (pos + width/4, lower),
      .line (pos, upper) (pos, p75),
      .line (pos, lower) (pos, p25),
      .rect ⟨pos - width/2, p25, width, p75 - p25⟩,
      .line (pos - width/2, median) (pos + width/2, median) ]
  else
    [ .line (upper, pos - width/4) (upper, pos + width/4),
      .line (lower, pos - width/4) (lower, pos + width/4),
      .line (upper, pos) (p75, pos),
      .line (lower, pos) (p25, pos),
      .rect ⟨p25, pos - width/2, p75 - p25, width⟩,
      .line (median, pos - width/2) (median, pos + width/2) ]

/-- The whisker-to-whisker rectangle of one sample (lines 202–205). -/
def sampleRect (locAsX : Bool) (width pos lower upper : ℚ) : RectF :=
  if locAsX then ⟨pos - width/2, lower, width, upper - lower⟩
  else ⟨lower, pos - width/2, upper - lower, width⟩

/-- The accumulator of the `generatePicture` loop: recorded draw ops,
`boxBounds` and `pixelPadding`. -/
structure BuildAcc where
  cmds : Picture
  boxBounds : RectF
  pixelPadding : ℚ
deriving DecidableEq, Repr

/-- The marker stamps of one sample's outliers (lines 163–168). -/
def outlierMarkerCmds (locAsX : Bool) (symbolSize pos : ℚ) (outs : List ℚ) :
    List DrawCmd :=
  outs.map (fun o => DrawCmd.marker (if locAsX then (pos, o) else (o, pos)) symbolSize)

/-- The outlier bounds rectangle of one sample (lines 172–175). -/
def outlierRect (locAsX : Bool) (spx spy pos omin omax : ℚ) : RectF :=
  if locAsX then ⟨pos - spx, omin - spy, 2*spx, omax - omin + 2*spy⟩
  else ⟨omin - spx, pos - spy, omax - omin + 2*spx, 2*spy⟩

/-- `boxBounds` after the outlier block of one sample (lines 169–175): union
the outlier rectangle when there are any outliers. -/
def outlierBoundsUpd (locAsX : Bool) (spx spy pos : ℚ) (bb : RectF)
    (outs : List ℚ) : RectF :=
  match outs.min?, outs.max? with
  | some omin, some omax => bb.unite (outlierRect locAsX spx spy pos omin omax)
  | _, _ => bb

/-- One iteration of the `for pos, dataset in zip(loc, data)` loop of
`generatePicture` (lines 153–210): statistics, outlier markers and bounds,
whisker/box/median draw ops, then the cosmetic/geometric pen bounds update.
`np.percentile` of an empty array raises `IndexError`. -/
def processSample (wf : WFunc) (locAsX outlierOn : Bool) (width : ℚ) (pen : Pen)
    (symbolSize pw spx spy : ℚ) (acc : BuildAcc) (pos : ℚ) (ds : List ℚ) :
    Except PyExc BuildAcc := do
  if ds.isEmpty then
    throw .indexError
  else
    let lu ← callWhisker wf ds
    let outs := if outlierOn then outlierValues ds lu.1 lu.2 else []
    let bb0 := outlierBoundsUpd locAsX spx spy pos acc.boxBounds outs
    let rect := sampleRect locAsX width pos lu.1 lu.2
    .ok ⟨acc.cmds ++ outlierMarkerCmds locAsX symbolSize pos outs
          ++ whiskerBoxCmds locAsX pos width lu.1 lu.2 (percentile ds 25)
              (percentile ds 75) (percentile ds 50),
        if pen.isCosmetic then bb0.unite rect
          else bb0.unite (rect.adjusted (-pw) (-pw) pw pw),
        if pen.isCosmetic then max acc.pixelPadding pw else acc.pixelPadding⟩

/-- The `generatePicture` sample loop. -/
def buildLoop (wf : WFunc) (locAsX outlierOn : Bool) (width : ℚ) (pen : Pen)
    (symbolSize pw spx spy : ℚ) :
    BuildAcc → List (ℚ × List ℚ) → Except PyExc BuildAcc
  | acc, [] => .ok acc
  | acc, (pos, ds) :: rest => do
    let a ← processSample wf locAsX outlierOn width pen symbolSize pw spx spy acc pos ds
    buildLoop wf locAsX outlierOn width pen symbolSize pw spx spy a rest

/-- The location resolution of `generatePicture` (lines 114–119): an explicit
`loc` list must match `data` in length (`ValueError` otherwise); anything else
is replaced by `np.arange(len(data))`. -/
def effLoc (loc : Option (List ℚ)) (n : ℕ) : Except PyExc (List ℚ) :=
  match loc with
  | some l => if l.length ≠ n then .error .valueError else .ok l
  | none => .ok ((List.range n).map (fun i : ℕ => (i : ℚ)))

/-- Model of `BoxplotItem.generatePicture` (lines 105–214). `pxLen`/`pyLen` are
the data-space lengths of one device pixel along the local axes
(`self.pixelVectors()`, with `length() or 0` applied). Returns the state after
the call and the exception it raised, if any; mutations made before a raise
(the lazily created empty picture) are kept, as in Python. -/
def generatePicture (st : ItemState) (pxLen pyLen : ℚ) : ItemState × Option PyExc :=
  let st := { st with picture := some (st.picture.getD []) }
  match st.opts.data with
  | none => (st, none)
  | some .nonList => (st, none)
  | some (.samples data) =>
    match effLoc st.opts.loc data.length with
    | .error e => (st, some e)
    | .ok loc =>
      let pen := st.opts.pen.getD defaultPen
      let pw := pen.widthF * (7072/10000)
      let symbolPadding := (7072/10000) * (st.opts.symbolSize.getD 10)
      match buildLoop st.whiskerFunc st.opts.locAsX st.opts.outlier
          (st.opts.width.getD (4/5)) pen (st.opts.symbolSize.getD 10) pw
          (pxLen * symbolPadding) (pyLen * symbolPadding)
          ⟨[], RectF.null, 0⟩ (loc.zip data) with
      | .error e => (st, some e)
      | .ok acc =>
        ({ st with
            picture := some acc.cmds
            boxBounds := some acc.boxBounds
            pixelPadding := some acc.pixelPadding }, none)

/-- Model of `BoxplotItem.paint` (lines 216–219): rebuild the cache if absent,
then replay it. Returns the picture that is replayed. -/
def paint (st : ItemState) (pxLen pyLen : ℚ) : Except PyExc (Picture × ItemState) :=
  let r := if st.picture.isNone then generatePicture st pxLen pyLen else (st, none)
  match r.2 with
  | some e => .error e
  | none =>
    match r.1.picture with
    | some pic => .ok (pic, r.1)
    | none => .error .attributeError

/-- Model of `BoxplotItem.boundingRect` (lines 221–237). The `Bool` records
whether this call ran `generatePicture`. Reading `_pixelPadding`/`_boxBounds`
before they were ever assigned raises `AttributeError`. -/
def boundingRect (st : ItemState) (pxLen pyLen : ℚ) :
    Except PyExc (RectF × ItemState × Bool) :=
  let r := if st.picture.isNone then generatePicture st pxLen pyLen else (st, none)
  match r.2 with
  | some e => .error e
  | none =>
    match r.1.pixelPadding with
    | none => .error .attributeError
    | some pxPad =>
      match r.1.boxBounds with
      | none => .error .attributeError
      | some bb =>
        let bpx := if pxPad > 0 then pxLen * pxPad else 0
        let bpy := if pxPad > 0 then pyLen * pxPad else 0
        .ok (bb.adjusted (-bpx) (-bpy) bpx bpy, r.1, st.picture.isNone)

/-- Model of `BoxplotItem.calculateDataBounds` (lines 239–268). Iterating a
non-list `data` raises `TypeError`; `np.min`/`np.max` of an empty array raise
`ValueError`. -/
def calculateDataBounds (st : ItemState) : Except PyExc RectF := do
  match st.opts.data with
  | none => .ok RectF.null
  | some .nonList => .error .typeError
  | some (.samples data) =>
    let pairs ← data.mapM (fun ds =>
      if st.opts.outlier then
        match ds.min?, ds.max? with
        | some lo, some hi => .ok (lo, hi)
        | _, _ => .error PyExc.valueError
      else callWhisker st.whiskerFunc ds)
    match (pairs.map Prod.fst).min?, (pairs.map Prod.snd).max? with
    | some miny, some maxy =>
      let loc := match st.opts.loc with
        | some loc => loc
        | none => (List.range data.length).map (fun i : ℕ => (i : ℚ))
      match loc.min?, loc.max? with
      | some minl, some maxl =>
        let width := st.opts.width.getD (4/5)
        let minx := minl - width/2
        let maxx := maxl + width/2
        if st.opts.locAsX then
          .ok ⟨minx, miny, maxx - minx, maxy - miny⟩
        else
          .ok ⟨miny, minx, maxy - miny, maxx - minx⟩
      | _, _ => .error .valueError
    | _, _ => .error .valueError

/-- Model of `BoxplotItem.dataBounds` (lines 270–275): the extent of
`calculateDataBounds` along one axis. -/
def dataBounds (st : ItemState) (ax : ℕ) : Except PyExc (ℚ × ℚ) := do
  let br ← calculateDataBounds st
  if ax = 0 then .ok (br.left, br.right) else .ok (br.top, br.bottom)

/-! ## Concrete fixtures used by counterexamples and witnesses -/

/-- A whisker function whose probe raises an exception the validator does not
catch (`ZeroDivisionError`). -/
def crashingWFunc : WFunc := ⟨fun _ => .error .zeroDivisionError⟩

/-- A whisker function that returns a pair of non-numeric objects: rejected by
validation without an exception. -/
def rejectedWFunc : WFunc := ⟨fun _ => .ok (.iter [.nonNum, .nonNum])⟩

/-- A cosmetic pen of width 2. -/
def penW2 : Pen := ⟨2, true⟩

/-- A one-sample item with a cosmetic width-2 outline pen, fresh (cache absent). -/
def c6State : ItemState :=
  { opts := { defaultOpts with data := some (.samples [[1, 2, 3]]), pen := some penW2 },
    whiskerFunc := IQR_WFunc,
    picture := none,
    outlierData := [],
    boxBounds := none,
    pixelPadding := none }

/-- An item state holding a previously built cache. -/
def stWithPicture : ItemState :=
  { opts := { defaultOpts with data := some (.samples [[1, 2, 3]]) },
    whiskerFunc := IQR_WFunc,
    picture := some [DrawCmd.rect ⟨0, 1, 4/5, 2⟩],
    outlierData := [],
    boxBounds := some ⟨0, 1, 4/5, 2⟩,
    pixelPadding := some 0 }

/-- A fresh item whose `data` option holds an object that is neither an
`np.ndarray` nor a `list`. -/
def nonListDataState : ItemState :=
  { opts := { defaultOpts with data := some .nonList },
    whiskerFunc := IQR_WFunc,
    picture := none,
    outlierData := [],
    boxBounds := none,
    pixelPadding := none }

/-- `setData(loc=[0,1,2], data=[[1],[2]])`: three locations, two samples. -/
def mismatchPatch : OptsPatch :=
  { OptsPatch.empty with
      loc := some (some [0, 1, 2])
      data := some (some (.samples [[1], [2]])) }

/-! ### Concrete evaluations (shared by several claims) -/

theorem floor_94 : ⌊(9/4 : ℚ)⌋₊ = 2 := by
  rw [Nat.floor_eq_iff (by norm_num)]
  norm_num

theorem floor_92 : ⌊(9/2 : ℚ)⌋₊ = 4 := by
  rw [Nat.floor_eq_iff (by norm_num)]
  norm_num

theorem floor_274 : ⌊(27/4 : ℚ)⌋₊ = 6 := by
  rw [Nat.floor_eq_iff (by norm_num)]
  norm_num

theorem floor_32 : ⌊(3/2 : ℚ)⌋₊ = 1 := by
  rw [Nat.floor_eq_iff (by norm_num)]
  norm_num

theorem floor_34 : ⌊(3/4 : ℚ)⌋₊ = 0 := by
  rw [Nat.floor_eq_iff (by norm_num)]
  norm_num

theorem eval_fixed_p25 : percentile [1,2,3,4,5,6,7,8,9,100] 25 = 13/4 := by
  norm_num [percentile, interpAt, npSort, List.insertionSort, List.orderedInsert,
    floor_94, List.getD]

theorem eval_fixed_p50 : percentile [1,2,3,4,5,6,7,8,9,100] 50 = 11/2 := by
  norm_num [percentile, interpAt, npSort, List.insertionSort, List.orderedInsert,
    floor_92, List.getD]

theorem eval_fixed_p75 : percentile [1,2,3,4,5,6,7,8,9,100] 75 = 31/4 := by
  norm_num [percentile, interpAt, npSort, List.insertionSort, List.orderedInsert,
    floor_274, List.getD]

theorem eval_fixed_IQR : IQR_1p5 [1,2,3,4,5,6,7,8,9,100] = some (1, 9) := by
  norm_num [IQR_1p5, upper_theory, lower_theory, percentile, interpAt, npSort,
    List.insertionSort, List.orderedInsert, List.filter, List.max?, List.min?,
    List.foldl, floor_94, floor_274, List.getD, max_def, min_def]

theorem eval_088_p25 : percentile [0,8,8,8] 25 = 6 := by
  norm_num [percentile, interpAt, npSort, List.insertionSort, List.orderedInsert,
    floor_34, List.getD]

theorem eval_088_IQR : IQR_1p5 [0,8,8,8] = some (8, 8) := by
  norm_num [IQR_1p5, upper_theory, lower_theory, percentile, interpAt, npSort,
    List.insertionSort, List.orderedInsert, List.filter, List.max?, List.min?,
    List.foldl, floor_34, floor_94, List.getD, max_def, min_def]

theorem eval_0456_p25 : percentile [0,4,5,6] 25 = 3 := by
  norm_num [percentile, interpAt, npSort, List.insertionSort, List.orderedInsert,
    floor_34, List.getD]

theorem eval_0456_p75 : percentile [0,4,5,6] 75 = 21/4 := by
  norm_num [percentile, interpAt, npSort, List.insertionSort, List.orderedInsert,
    floor_94, List.getD]

theorem floor_12 : ⌊(1/2 : ℚ)⌋₊ = 0 := by
  rw [Nat.floor_eq_iff (by norm_num)]
  norm_num

theorem eval_123_IQR : IQR_1p5 [1,2,3] = some (1, 3) := by
  norm_num [IQR_1p5, upper_theory, lower_theory, percentile, interpAt, npSort,
    List.insertionSort, List.orderedInsert, List.filter, List.max?, List.min?,
    List.foldl, floor_12, floor_32, List.getD, max_def, min_def]

theorem eval_123_callWhisker : callWhisker IQR_WFunc [1,2,3] = .ok (1, 3) := by
  simp [callWhisker, IQR_WFunc, eval_123_IQR, unpack2, bind, Except.bind]

theorem eval_0456_IQR : IQR_1p5 [0,4,5,6] = some (0, 6) := by
  norm_num [IQR_1p5, upper_theory, lower_theory, percentile, interpAt, npSort,
    List.insertionSort, List.orderedInsert, List.filter, List.max?, List.min?,
    List.foldl, floor_34, floor_94, List.getD, max_def, min_def]

/-! ### Facts about the sorted view -/

theorem npSort_sorted (d : List ℚ) : (npSort d).Sorted (· ≤ ·) :=
  List.sorted_insertionSort _ d

theorem npSort_perm (d : List ℚ) : (npSort d).Perm d :=
  List.perm_insertionSort _ d

theorem mem_npSort {x : ℚ} {d : List ℚ} : x ∈ npSort d ↔ x ∈ d :=
  (npSort_perm d).mem_iff

theorem npSort_length (d : List ℚ) : (npSort d).length = d.length :=
  (npSort_perm d).length_eq

theorem getD_mem {s : List ℚ} {i : ℕ} (hi : i < s.length) : s.getD i 0 ∈ s := by
  rw [List.getD_eq_getElem _ _ hi]
  exact List.getElem_mem hi

theorem sorted_getD_mono {s : List ℚ} (hs : s.Sorted (· ≤ ·)) {i j : ℕ}
    (hij : i ≤ j) (hj : j < s.length) : s.getD i 0 ≤ s.getD j 0 := by
  have hi : i < s.length := lt_of_le_of_lt hij hj
  rw [List.getD_eq_getElem _ _ hi, List.getD_eq_getElem _ _ hj]
  exact hs.rel_get_of_le (a := ⟨i, hi⟩) (b := ⟨j, hj⟩) hij

/-! ### Bounds and monotonicity of linear interpolation -/

theorem length_pos_of_le {s : List ℚ} {h : ℚ} (h0 : 0 ≤ h)
    (h1 : h ≤ (s.length : ℚ) - 1) : 0 < s.length := by
  by_contra hc
  have : s.length = 0 := by omega
  rw [this] at h1
  norm_num at h1
  linarith

theorem floor_le_len_sub_one {s : List ℚ} {h : ℚ} (h0 : 0 ≤ h)
    (h1 : h ≤ (s.length : ℚ) - 1) : ⌊h⌋₊ ≤ s.length - 1 := by
  have hn : 0 < s.length := length_pos_of_le h0 h1
  have hcast : h ≤ ((s.length - 1 : ℕ) : ℚ) := by
    rw [Nat.cast_sub hn]
    push_cast
    linarith
  calc ⌊h⌋₊ ≤ ⌊((s.length - 1 : ℕ) : ℚ)⌋₊ := Nat.floor_le_floor hcast
    _ = s.length - 1 := Nat.floor_natCast _

theorem lo_le_interpAt {s : List ℚ} (hs : s.Sorted (· ≤ ·)) {h : ℚ}
    (h0 : 0 ≤ h) (h1 : h ≤ (s.length : ℚ) - 1) :
    s.getD ⌊h⌋₊ 0 ≤ interpAt s h := by
  have hn : 0 < s.length := length_pos_of_le h0 h1
  have hile : ⌊h⌋₊ ≤ s.length - 1 := floor_le_len_sub_one h0 h1
  have hjlt : min (⌊h⌋₊ + 1) (s.length - 1) < s.length := by omega
  have hij : ⌊h⌋₊ ≤ min (⌊h⌋₊ + 1) (s.length - 1) := by omega
  have hlohi : s.getD ⌊h⌋₊ 0 ≤ s.getD (min (⌊h⌋₊ + 1) (s.length - 1)) 0 :=
    sorted_getD_mono hs hij hjlt
  have hfrac : 0 ≤ h - (⌊h⌋₊ : ℚ) := by
    have := Nat.floor_le h0
    linarith
  simp only [interpAt]
  nlinarith

theorem interpAt_le_hi {s : List ℚ} (hs : s.Sorted (· ≤ ·)) {h : ℚ}
    (h0 : 0 ≤ h) (h1 : h ≤ (s.length : ℚ) - 1) :
    interpAt s h ≤ s.getD (min (⌊h⌋₊ + 1) (s.length - 1)) 0 := by
  have hn : 0 < s.length := length_pos_of_le h0 h1
  have hile : ⌊h⌋₊ ≤ s.length - 1 := floor_le_len_sub_one h0 h1
  have hjlt : min (⌊h⌋₊ + 1) (s.length - 1) < s.length := by omega
  have hij : ⌊h⌋₊ ≤ min (⌊h⌋₊ + 1) (s.length - 1) := by omega
  have hlohi : s.getD ⌊h⌋₊ 0 ≤ s.getD (min (⌊h⌋₊ + 1) (s.length - 1)) 0 :=
    sorted_getD_mono hs hij hjlt
  have hfrac : h - (⌊h⌋₊ : ℚ) ≤ 1 := by
    have := Nat.lt_floor_add_one h
    linarith
  simp only [interpAt]
  nlinarith

theorem interpAt_ge_head {s : List ℚ} (hs : s.Sorted (· ≤ ·)) {h : ℚ}
    (h0 : 0 ≤ h) (h1 : h ≤ (s.length : ℚ) - 1) :
    s.getD 0 0 ≤ interpAt s h := by
  have hn : 0 < s.length := length_pos_of_le h0 h1
  have hile : ⌊h⌋₊ ≤ s.length - 1 := floor_le_len_sub_one h0 h1
  refine le_trans (sorted_getD_mono hs (Nat.zero_le _) (by omega)) (lo_le_interpAt hs h0 h1)

theorem interpAt_le_last {s : List ℚ} (hs : s.Sorted (· ≤ ·)) {h : ℚ}
    (h0 : 0 ≤ h) (h1 : h ≤ (s.length : ℚ) - 1) :
    interpAt s h ≤ s.getD (s.length - 1) 0 := by
  have hn : 0 < s.length := length_pos_of_le h0 h1
  have hile : ⌊h⌋₊ ≤ s.length - 1 := floor_le_len_sub_one h0 h1
  refine le_trans (interpAt_le_hi hs h0 h1) (sorted_getD_mono hs (by omega) (by omega))

theorem interpAt_mono {s : List ℚ} (hs : s.Sorted (· ≤ ·)) {h₁ h₂ : ℚ}
    (h0 : 0 ≤ h₁) (h12 : h₁ ≤ h₂) (h1 : h₂ ≤ (s.length : ℚ) - 1) :
    interpAt s h₁ ≤ interpAt s h₂ := by
  have h0' : 0 ≤ h₂ := le_trans h0 h12
  have h1' : h₁ ≤ (s.length : ℚ) - 1 := le_trans h12 h1
  have hn : 0 < s.length := length_pos_of_le h0' h1
  have hle : ⌊h₁⌋₊ ≤ ⌊h₂⌋₊ := Nat.floor_le_floor h12
  rcases Nat.eq_or_lt_of_le hle with heq | hlt
  · -- same cell: the two interpolations share lo and hi
    have h2le : ⌊h₂⌋₊ ≤ s.length - 1 := floor_le_len_sub_one h0' h1
    have hjlt : min (⌊h₂⌋₊ + 1) (s.length - 1) < s.length := by omega
    have hij : ⌊h₂⌋₊ ≤ min (⌊h₂⌋₊ + 1) (s.length - 1) := by omega
    have hlohi : s.getD ⌊h₂⌋₊ 0 ≤ s.getD (min (⌊h₂⌋₊ + 1) (s.length - 1)) 0 :=
      sorted_getD_mono hs hij hjlt
    simp only [interpAt, heq]
    nlinarith
  · -- the first point is in a strictly earlier cell
    have h2le : ⌊h₂⌋₊ ≤ s.length - 1 := floor_le_len_sub_one h0' h1
    have hmid : s.getD (min (⌊h₁⌋₊ + 1) (s.length - 1)) 0 ≤ s.getD ⌊h₂⌋₊ 0 :=
      sorted_getD_mono hs (by omega) (by omega)
    exact le_trans (interpAt_le_hi hs h0 h1')
      (le_trans hmid (lo_le_interpAt hs h0' h1))

/-! ### Percentile facts -/

theorem percentile_arg_nonneg {d : List ℚ} {q : ℚ} (hne : d ≠ []) (hq : 0 ≤ q) :
    0 ≤ ((d.length : ℚ) - 1) * q / 100 := by
  have h1 : 1 ≤ (d.length : ℚ) := by
    have : 0 < d.length := List.length_pos.mpr hne
    exact_mod_cast this
  exact div_nonneg (mul_nonneg (by linarith) hq) (by norm_num)

theorem percentile_arg_le {d : List ℚ} {q : ℚ} (hne : d ≠ []) (hq : q ≤ 100) (hq0 : 0 ≤ q) :
    ((d.length : ℚ) - 1) * q / 100 ≤ ((npSort d).length : ℚ) - 1 := by
  have h1 : 1 ≤ (d.length : ℚ) := by
    have : 0 < d.length := List.length_pos.mpr hne
    exact_mod_cast this
  rw [npSort_length]
  nlinarith

theorem percentile_mono (d : List ℚ) (hne : d ≠ []) {q₁ q₂ : ℚ}
    (h0 : 0 ≤ q₁) (h12 : q₁ ≤ q₂) (h2 : q₂ ≤ 100) :
    percentile d q₁ ≤ percentile d q₂ := by
  have h1 : 1 ≤ (d.length : ℚ) := by
    have : 0 < d.length := List.length_pos.mpr hne
    exact_mod_cast this
  refine interpAt_mono (npSort_sorted d) (percentile_arg_nonneg hne h0) ?_
    (percentile_arg_le hne h2 (le_trans h0 h12))
  nlinarith

theorem min_le_percentile (d : List ℚ) (hne : d ≠ []) {q : ℚ}
    (h0 : 0 ≤ q) (h100 : q ≤ 100) :
    (npSort d).getD 0 0 ≤ percentile d q :=
  interpAt_ge_head (npSort_sorted d) (percentile_arg_nonneg hne h0)
    (percentile_arg_le hne h100 h0)

theorem percentile_le_max (d : List ℚ) (hne : d ≠ []) {q : ℚ}
    (h0 : 0 ≤ q) (h100 : q ≤ 100) :
    percentile d q ≤ (npSort d).getD ((npSort d).length - 1) 0 :=
  interpAt_le_last (npSort_sorted d) (percentile_arg_nonneg hne h0)
    (percentile_arg_le hne h100 h0)

theorem npSort_head_mem {d : List ℚ} (hne : d ≠ []) : (npSort d).getD 0 0 ∈ d := by
  have hn : 0 < (npSort d).length := by
    rw [npSort_length]
    exact List.length_pos.mpr hne
  exact mem_npSort.mp (getD_mem hn)

theorem npSort_last_mem {d : List ℚ} (hne : d ≠ []) :
    (npSort d).getD ((npSort d).length - 1) 0 ∈ d := by
  have hn : 0 < (npSort d).length := by
    rw [npSort_length]
    exact List.length_pos.mpr hne
  exact mem_npSort.mp (getD_mem (by omega))

/-! ### `np.max` / `np.min` on nonempty selections -/

theorem rat_max?_eq_some_iff {l : List ℚ} {a : ℚ} :
    l.max? = some a ↔ a ∈ l ∧ ∀ b ∈ l, b ≤ a := by
  have anti : Std.Antisymm (fun x1 x2 : ℚ => x1 ≤ x2) := ⟨fun h h' => le_antisymm h h'⟩
  exact List.max?_eq_some_iff (fun x => le_refl x) (fun x y => max_choice x y)
    (fun x y z => by simp)

theorem rat_min?_eq_some_iff {l : List ℚ} {a : ℚ} :
    l.min? = some a ↔ a ∈ l ∧ ∀ b ∈ l, a ≤ b := by
  have anti : Std.Antisymm (fun x1 x2 : ℚ => x1 ≤ x2) := ⟨fun h h' => le_antisymm h h'⟩
  exact List.min?_eq_some_iff (fun x => le_refl x) (fun x y => min_choice x y)
    (fun x y z => by simp)

theorem max?_isSome_of_ne_nil {l : List ℚ} (h : l ≠ []) : ∃ a, l.max? = some a := by
  cases hc : l.max? with
  | none => exact absurd (List.max?_eq_none_iff.mp hc) h
  | some a => exact ⟨a, rfl⟩

theorem min?_isSome_of_ne_nil {l : List ℚ} (h : l ≠ []) : ∃ a, l.min? = some a := by
  cases hc : l.min? with
  | none => exact absurd (List.min?_eq_none_iff.mp hc) h
  | some a => exact ⟨a, rfl⟩

/-! ### Characterization of `IQR_1p5` -/

theorem lower_theory_le_upper_theory {d : List ℚ} (hne : d ≠ []) :
    lower_theory d ≤ upper_theory d := by
  have hq : percentile d 25 ≤ percentile d 75 :=
    percentile_mono d hne (by norm_num) (by norm_num) (by norm_num)
  unfold lower_theory upper_theory
  linarith

/-- For nonempty data both filtered selections of `IQR_1p5` are nonempty, the
policy returns a pair, and the pair is exactly (min observation above the lower
fence, max observation below the upper fence). -/
theorem IQR_1p5_spec {d : List ℚ} (hne : d ≠ []) :
    ∃ l u, IQR_1p5 d = some (l, u)
      ∧ u ∈ d ∧ u ≤ upper_theory d ∧ (∀ x ∈ d, x ≤ upper_theory d → x ≤ u)
      ∧ l ∈ d ∧ lower_theory d ≤ l ∧ (∀ x ∈ d, lower_theory d ≤ x → l ≤ x) := by
  have hq : percentile d 25 ≤ percentile d 75 :=
    percentile_mono d hne (by norm_num) (by norm_num) (by norm_num)
  -- the smallest observation passes the upper fence
  have hminmem : (npSort d).getD 0 0 ∈ d := npSort_head_mem hne
  have hminle : (npSort d).getD 0 0 ≤ upper_theory d := by
    have h75 := min_le_percentile d hne (q := 75) (by norm_num) (by norm_num)
    unfold upper_theory
    linarith
  -- the largest observation passes the lower fence
  have hmaxmem : (npSort d).getD ((npSort d).length - 1) 0 ∈ d := npSort_last_mem hne
  have hmaxge : lower_theory d ≤ (npSort d).getD ((npSort d).length - 1) 0 := by
    have h25 := percentile_le_max d hne (q := 25) (by norm_num) (by norm_num)
    unfold lower_theory
    linarith
  have hUne : d.filter (fun x => x ≤ upper_theory d) ≠ [] := by
    refine List.ne_nil_of_mem (a := (npSort d).getD 0 0) ?_
    simp only [List.mem_filter, decide_eq_true_eq]
    exact ⟨hminmem, hminle⟩
  have hLne : d.filter (fun x => lower_theory d ≤ x) ≠ [] := by
    refine List.ne_nil_of_mem (a := (npSort d).getD ((npSort d).length - 1) 0) ?_
    simp only [List.mem_filter, decide_eq_true_eq]
    exact ⟨hmaxmem, hmaxge⟩
  obtain ⟨u, hu⟩ := max?_isSome_of_ne_nil hUne
  obtain ⟨l, hl⟩ := min?_isSome_of_ne_nil hLne
  obtain ⟨humem, hub⟩ := rat_max?_eq_some_iff.mp hu
  obtain ⟨hlmem, hlb⟩ := rat_min?_eq_some_iff.mp hl
  simp only [List.mem_filter, decide_eq_true_eq] at humem hlmem
  refine ⟨l, u, ?_, humem.1, humem.2, ?_, hlmem.1, hlmem.2, ?_⟩
  · unfold IQR_1p5
    rw [hu, hl]
  · intro x hx hxle
    exact hub x (by simp only [List.mem_filter, decide_eq_true_eq]; exact ⟨hx, hxle⟩)
  · intro x hx hxge
    exact hlb x (by simp only [List.mem_filter, decide_eq_true_eq]; exact ⟨hx, hxge⟩)

/-! ## Claim theorems -/

/-- C1 (counterexample): for the sample `[0,4,5,6]` the policy returns
`lower = 0`, which lies strictly below the claim's lower theoretical fence
`p75 − 1.5·(p75−p25) = 15/8`; so the lower fence is not at `p75 − 1.5·IQR`. -/
theorem C1_counterexample :
    IQR_1p5 [0,4,5,6] = some (0, 6)
    ∧ percentile [0,4,5,6] 25 = 3
    ∧ percentile [0,4,5,6] 75 = 21/4
    ∧ ¬ (percentile [0,4,5,6] 75
          - 3/2 * (percentile [0,4,5,6] 75 - percentile [0,4,5,6] 25) ≤ 0) := by
  refine ⟨eval_0456_IQR, eval_0456_p25, eval_0456_p75, ?_⟩
  rw [eval_0456_p25, eval_0456_p75]
  norm_num

/-- C1 (amended): for every non-empty sample `IQR_1p5` returns a pair
`(lower, upper)` where `upper` is the maximum observation not exceeding the
upper fence `p75 + 1.5·(p75−p25)` and `lower` is the minimum observation not
below the lower fence `p25 − 1.5·(p75−p25)` — whiskers snap to observations;
for `[1,2,3,4,5,6,7,8,9,100]`: p25 = 3.25, median = 5.5, p75 = 7.75,
lower = 1, upper = 9. -/
theorem C1_whisker_policy (x : ℚ) (rest : List ℚ) :
    (∃ l u, IQR_1p5 (x :: rest) = some (l, u)
      ∧ u ∈ x :: rest ∧ u ≤ upper_theory (x :: rest)
      ∧ (∀ y ∈ x :: rest, y ≤ upper_theory (x :: rest) → y ≤ u)
      ∧ l ∈ x :: rest ∧ lower_theory (x :: rest) ≤ l
      ∧ (∀ y ∈ x :: rest, lower_theory (x :: rest) ≤ y → l ≤ y))
    ∧ percentile [1,2,3,4,5,6,7,8,9,100] 25 = 13/4
    ∧ percentile [1,2,3,4,5,6,7,8,9,100] 50 = 11/2
    ∧ percentile [1,2,3,4,5,6,7,8,9,100] 75 = 31/4
    ∧ IQR_1p5 [1,2,3,4,5,6,7,8,9,100] = some (1, 9) :=
  ⟨IQR_1p5_spec (List.cons_ne_nil x rest), eval_fixed_p25, eval_fixed_p50,
    eval_fixed_p75, eval_fixed_IQR⟩

/-- C7 (counterexample): on the sample `[0,8,8,8]` the IQR policy yields
`lowerWhisker = 8` while `p25 = 6`, so `lowerWhisker ≤ p25` fails. -/
theorem C7_counterexample :
    IQR_1p5 [0,8,8,8] = some (8, 8)
    ∧ percentile [0,8,8,8] 25 = 6
    ∧ ¬ ((8 : ℚ) ≤ 6) :=
  ⟨eval_088_IQR, eval_088_p25, by norm_num⟩

/-- C7 (amended): for every non-empty sample `p25 ≤ median ≤ p75`; the whisker
bounds need not bracket the quartiles, but for `[1,2,3,4,5,6,7,8,9,100]` the
full chain `lowerWhisker ≤ p25 ≤ median ≤ p75 ≤ upperWhisker` holds
(`1 ≤ 3.25 ≤ 5.5 ≤ 7.75 ≤ 9`). -/
theorem C7_quartile_chain (x : ℚ) (rest : List ℚ) :
    (percentile (x :: rest) 25 ≤ percentile (x :: rest) 50
      ∧ percentile (x :: rest) 50 ≤ percentile (x :: rest) 75)
    ∧ (IQR_1p5 [1,2,3,4,5,6,7,8,9,100] = some (1, 9)
      ∧ (1 : ℚ) ≤ percentile [1,2,3,4,5,6,7,8,9,100] 25
      ∧ percentile [1,2,3,4,5,6,7,8,9,100] 25 ≤ percentile [1,2,3,4,5,6,7,8,9,100] 50
      ∧ percentile [1,2,3,4,5,6,7,8,9,100] 50 ≤ percentile [1,2,3,4,5,6,7,8,9,100] 75
      ∧ percentile [1,2,3,4,5,6,7,8,9,100] 75 ≤ 9) := by
  refine ⟨⟨?_, ?_⟩, eval_fixed_IQR, ?_, ?_, ?_, ?_⟩
  · exact percentile_mono _ (List.cons_ne_nil x rest) (by norm_num) (by norm_num) (by norm_num)
  · exact percentile_mono _ (List.cons_ne_nil x rest) (by norm_num) (by norm_num) (by norm_num)
  · rw [eval_fixed_p25]
    norm_num
  · rw [eval_fixed_p25, eval_fixed_p50]
    norm_num
  · rw [eval_fixed_p50, eval_fixed_p75]
    norm_num
  · rw [eval_fixed_p75]
    norm_num

/-- C10: every `setData` call — with any keyword set, including the empty one —
unconditionally drops the cached picture and the retained outlier map, merges
the options, and notifies the host of a geometry and bounds change. -/
theorem C10_setData_unconditional_invalidation (st : ItemState) (p : OptsPatch) :
    (setData st p).1.picture = none
    ∧ (setData st p).1.outlierData = []
    ∧ (setData st p).1.opts = updateOpts st.opts p
    ∧ (setData st p).1.whiskerFunc = st.whiskerFunc
    ∧ (setData st p).2 = [HostEvent.prepareGeometryChange, HostEvent.informViewBoundsChanged] :=
  ⟨rfl, rfl, rfl, rfl, rfl⟩

/-- C3 (counterexample): a whisker function whose probe raises
`ZeroDivisionError` — an exception `validateWhiskerFunc` does not catch — makes
`setWhiskerFunc` itself raise instead of reporting non-fatally. -/
theorem C3_counterexample :
    validateWhiskerFunc crashingWFunc = .error .zeroDivisionError
    ∧ setWhiskerFunc (initState OptsPatch.empty) crashingWFunc
        = .error .zeroDivisionError :=
  ⟨rfl, rfl⟩

/-- C3 (amended): a policy whose probe raises `TypeError` or `ValueError`, or
whose returned value does not unpack to exactly two numbers, is rejected
non-fatally: `setWhiskerFunc` returns normally, the previous state (policy and
cached picture) is kept, and `boundingRect` is unchanged. -/
theorem C3_invalid_policy_nonfatal (st : ItemState) (f : WFunc) (pxLen pyLen : ℚ)
    (hbad : f.call [1,2,3] = .error .typeError ∨ f.call [1,2,3] = .error .valueError
      ∨ ∃ r, f.call [1,2,3] = .ok r
          ∧ ∀ a b, r = .iter [a, b] → (isNumber a && isNumber b) = false) :
    validateWhiskerFunc f = .ok false
    ∧ ∃ st', setWhiskerFunc st f = .ok (st', false)
        ∧ st'.whiskerFunc = st.whiskerFunc
        ∧ st'.picture = st.picture
        ∧ boundingRect st' pxLen pyLen = boundingRect st pxLen pyLen := by
  have hval : validateWhiskerFunc f = .ok false := by
    rcases hbad with h | h | ⟨r, hr, hnum⟩
    · simp [validateWhiskerFunc, h]
    · simp [validateWhiskerFunc, h]
    · cases r with
      | nonIter => simp [validateWhiskerFunc, hr, unpack2]
      | iter l =>
        match l with
        | [] => simp [validateWhiskerFunc, hr, unpack2]
        | [a] => simp [validateWhiskerFunc, hr, unpack2]
        | [a, b] =>
          have h2 := hnum a b rfl
          simp [validateWhiskerFunc, hr, unpack2, h2]
        | a :: b :: c :: l => simp [validateWhiskerFunc, hr, unpack2]
  refine ⟨hval, st, ?_, rfl, rfl, rfl⟩
  unfold setWhiskerFunc
  rw [hval]

/-- C4 (counterexample): `setData` with three locations and two samples does
not fail — it completes, emits the usual notifications, and destroys the
previously cached picture rather than leaving it untouched. -/
theorem C4_counterexample :
    stWithPicture.picture = some [DrawCmd.rect ⟨0, 1, 4/5, 2⟩]
    ∧ (setData stWithPicture mismatchPatch).1.picture = none
    ∧ (setData stWithPicture mismatchPatch).2
        = [HostEvent.prepareGeometryChange, HostEvent.informViewBoundsChanged] :=
  ⟨rfl, rfl, rfl⟩

/-- C4 (amended): a `loc`/`data` length mismatch is not detected by `setData`
(which merges, discards the cache and notifies normally); the descriptive
`ValueError` is raised on the next geometry build — before anything is drawn
and before `_boxBounds`/`_pixelPadding` are touched — and propagates out of
`boundingRect`. -/
theorem C4_deferred_validation (st : ItemState) (p : OptsPatch) (loc : List ℚ)
    (data : List (List ℚ)) (px py : ℚ)
    (hploc : p.loc = some (some loc))
    (hpdata : p.data = some (some (.samples data)))
    (hmm : loc.length ≠ data.length) :
    (setData st p).1.picture = none
    ∧ (setData st p).2 = [HostEvent.prepareGeometryChange, HostEvent.informViewBoundsChanged]
    ∧ (generatePicture (setData st p).1 px py).2 = some .valueError
    ∧ (generatePicture (setData st p).1 px py).1.picture = some []
    ∧ (generatePicture (setData st p).1 px py).1.boxBounds = st.boxBounds
    ∧ (generatePicture (setData st p).1 px py).1.pixelPadding = st.pixelPadding
    ∧ boundingRect (setData st p).1 px py = .error .valueError := by
  refine ⟨rfl, rfl, ?_, ?_, ?_, ?_, ?_⟩ <;>
    simp [setData, updateOpts, hploc, hpdata, generatePicture, effLoc, hmm, boundingRect]

/-- C5: the spec is right that an absent or non-2-D `data` makes the geometry
build a silent no-op with an empty picture, and `paint` indeed succeeds; but
`boundingRect()` on such an item crashes with `AttributeError`, because the
early return skips the assignment of `_boxBounds`/`_pixelPadding` which
`boundingRect` then reads. -/
theorem C5_fresh_boundingRect_raises (px py : ℚ) :
    (initState OptsPatch.empty).opts.data = none
    ∧ (initState OptsPatch.empty).picture = none
    ∧ (generatePicture (initState OptsPatch.empty) px py).2 = none
    ∧ (generatePicture (initState OptsPatch.empty) px py).1.picture = some []
    ∧ paint (initState OptsPatch.empty) px py
        = .ok ([], (generatePicture (initState OptsPatch.empty) px py).1)
    ∧ boundingRect (initState OptsPatch.empty) px py = .error .attributeError
    ∧ (generatePicture nonListDataState px py).2 = none
    ∧ boundingRect nonListDataState px py = .error .attributeError := by
  have hval : validateWhiskerFunc IQR_WFunc = .ok true := by
    simp [validateWhiskerFunc, IQR_WFunc, eval_123_IQR, unpack2, isNumber]
  have hsw : setWhiskerFunc ⟨defaultOpts, IQR_WFunc, none, [], none, none⟩ IQR_WFunc
      = .ok (⟨defaultOpts, IQR_WFunc, none, [], none, none⟩, true) := by
    unfold setWhiskerFunc
    rw [hval]
  have hinit : initState OptsPatch.empty = ⟨defaultOpts, IQR_WFunc, none, [], none, none⟩ := by
    simp only [initState]
    rw [hsw]
    rfl
  rw [hinit]
  refine ⟨rfl, rfl, rfl, rfl, rfl, rfl, rfl, rfl⟩

/-- Witness for C3: installing a function that returns two non-numbers on the
probe is rejected non-fatally, with the state and bounding rect unchanged. -/
theorem C3_invalid_policy_nonfatal_witness :
    validateWhiskerFunc rejectedWFunc = .ok false
    ∧ ∃ st', setWhiskerFunc stWithPicture rejectedWFunc = .ok (st', false)
        ∧ st'.whiskerFunc = stWithPicture.whiskerFunc
        ∧ st'.picture = stWithPicture.picture
        ∧ boundingRect st' 0 0 = boundingRect stWithPicture 0 0 :=
  C3_invalid_policy_nonfatal stWithPicture rejectedWFunc 0 0
    (Or.inr (Or.inr ⟨.iter [.nonNum, .nonNum], rfl, fun a b h => by cases h; rfl⟩))

/-- Witness for C4: the deferred mismatch `ValueError` on a concrete item. -/
theorem C4_deferred_validation_witness :
    (setData stWithPicture mismatchPatch).1.picture = none
    ∧ (setData stWithPicture mismatchPatch).2
        = [HostEvent.prepareGeometryChange, HostEvent.informViewBoundsChanged]
    ∧ (generatePicture (setData stWithPicture mismatchPatch).1 0 0).2 = some .valueError
    ∧ (generatePicture (setData stWithPicture mismatchPatch).1 0 0).1.picture = some []
    ∧ (generatePicture (setData stWithPicture mismatchPatch).1 0 0).1.boxBounds
        = stWithPicture.boxBounds
    ∧ (generatePicture (setData stWithPicture mismatchPatch).1 0 0).1.pixelPadding
        = stWithPicture.pixelPadding
    ∧ boundingRect (setData stWithPicture mismatchPatch).1 0 0 = .error .valueError :=
  C4_deferred_validation stWithPicture mismatchPatch [0, 1, 2] [[1], [2]] 0 0
    rfl rfl (by decide)

/-! ### Elimination principle for one loop iteration -/

/-- A successful `processSample` determines everything: the whisker call
succeeded, the dataset is nonempty, and the accumulator is extended by the
outlier markers, the whisker/box/median ops, the (possibly expanded) sample
rectangle, and the cosmetic-pen padding bump. -/
theorem processSample_ok_elim {wf : WFunc} {locAsX outlierOn : Bool} {width : ℚ}
    {pen : Pen} {ssize pw spx spy pos : ℚ} {acc a : BuildAcc} {ds : List ℚ}
    (hok : processSample wf locAsX outlierOn width pen ssize pw spx spy acc pos ds
      = .ok a) :
    ∃ lower upper, callWhisker wf ds = .ok (lower, upper)
      ∧ ds.isEmpty = false
      ∧ a = ⟨acc.cmds
            ++ outlierMarkerCmds locAsX ssize pos
                (if outlierOn then outlierValues ds lower upper else [])
            ++ whiskerBoxCmds locAsX pos width lower upper (percentile ds 25)
                (percentile ds 75) (percentile ds 50),
          (if pen.isCosmetic
            then (outlierBoundsUpd locAsX spx spy pos acc.boxBounds
                (if outlierOn then outlierValues ds lower upper else [])).unite
                (sampleRect locAsX width pos lower upper)
            else (outlierBoundsUpd locAsX spx spy pos acc.boxBounds
                (if outlierOn then outlierValues ds lower upper else [])).unite
                ((sampleRect locAsX width pos lower upper).adjusted
                  (-pw) (-pw) pw pw)),
          (if pen.isCosmetic then max acc.pixelPadding pw else acc.pixelPadding)⟩ := by
  cases hemp : ds.isEmpty with
  | true =>
    rw [processSample] at hok
    simp [hemp, throw, throwThe, MonadExceptOf.throw] at hok
  | false =>
    rw [processSample] at hok
    cases hcall : callWhisker wf ds with
    | error e => simp [hemp, hcall, bind, Except.bind] at hok
    | ok lu =>
      obtain ⟨lower, upper⟩ := lu
      simp only [hemp, Bool.false_eq_true, if_false, hcall, bind, Except.bind,
        Except.ok.injEq] at hok
      exact ⟨lower, upper, rfl, rfl, hok.symm⟩

/-- The padding step of one iteration in isolation. -/
theorem processSample_padding {wf : WFunc} {locAsX outlierOn : Bool} {width : ℚ}
    {pen : Pen} {ssize pw spx spy pos : ℚ} {acc a : BuildAcc} {ds : List ℚ}
    (hok : processSample wf locAsX outlierOn width pen ssize pw spx spy acc pos ds
      = .ok a) :
    a.pixelPadding = if pen.isCosmetic then max acc.pixelPadding pw
      else acc.pixelPadding := by
  obtain ⟨l, u, _, _, ha⟩ := processSample_ok_elim hok
  rw [ha]

/-- C2: with outlier display enabled, a value of the sample is classified as an
outlier exactly when it lies strictly outside `[lower, upper]` — the complement
of the inclusive whisker interval — where `(lower, upper)` is the active
policy's result; and the sample's recorded picture ops are the markers of
exactly those values followed by the whisker/box/median ops. -/
theorem C2_outlier_partition (wf : WFunc) (locAsX : Bool) (width : ℚ) (pen : Pen)
    (ssize pw spx spy pos : ℚ) (acc : BuildAcc) (ds : List ℚ) (lower upper : ℚ)
    (hemp : ds.isEmpty = false)
    (hwf : callWhisker wf ds = .ok (lower, upper)) :
    (∀ x : ℚ, x ∈ outlierValues ds lower upper ↔ x ∈ ds ∧ (x < lower ∨ upper < x))
    ∧ (∀ x : ℚ, x ∈ outlierValues ds lower upper ↔ x ∈ ds ∧ ¬ (lower ≤ x ∧ x ≤ upper))
    ∧ ∃ a, processSample wf locAsX true width pen ssize pw spx spy acc pos ds = .ok a
        ∧ a.cmds = acc.cmds
            ++ (outlierValues ds lower upper).map
                (fun o => DrawCmd.marker (if locAsX then (pos, o) else (o, pos)) ssize)
            ++ whiskerBoxCmds locAsX pos width lower upper (percentile ds 25)
                (percentile ds 75) (percentile ds 50) := by
  refine ⟨?_, ?_, ?_⟩
  · intro x
    simp [outlierValues, List.mem_filter, gt_iff_lt]
  · intro x
    constructor
    · intro hx
      have := (List.mem_filter.mp hx)
      simp only [decide_eq_true_eq] at this
      refine ⟨this.1, ?_⟩
      rcases this.2 with h | h
      · intro hcon
        linarith [hcon.1]
      · intro hcon
        linarith [hcon.2]
    · intro ⟨hx, hout⟩
      refine List.mem_filter.mpr ⟨hx, ?_⟩
      simp only [decide_eq_true_eq]
      by_contra hno
      push_neg at hno
      exact hout ⟨hno.1, by simpa [gt_iff_lt] using hno.2⟩
  · cases hps : processSample wf locAsX true width pen ssize pw spx spy acc pos ds with
    | error e =>
      rw [processSample] at hps
      simp [hemp, hwf, bind, Except.bind] at hps
    | ok a =>
      obtain ⟨l', u', hc, _, ha⟩ := processSample_ok_elim hps
      rw [hwf] at hc
      injection hc with hc
      cases hc
      refine ⟨a, rfl, ?_⟩
      rw [ha]
      simp [outlierMarkerCmds]

/-- Witness for C2 on the sample `[1,2,3]` with the default policy
(whiskers `(1, 3)`): no value is an outlier and only box ops are recorded. -/
theorem C2_outlier_partition_witness :
    (∀ x : ℚ, x ∈ outlierValues [1,2,3] 1 3 ↔ x ∈ [1,2,3] ∧ (x < 1 ∨ 3 < x))
    ∧ (∀ x : ℚ, x ∈ outlierValues [1,2,3] 1 3 ↔ x ∈ [1,2,3] ∧ ¬ ((1:ℚ) ≤ x ∧ x ≤ 3))
    ∧ ∃ a, processSample IQR_WFunc true true (4/5) defaultPen 10 0 0 0
            ⟨[], RectF.null, 0⟩ 0 [1,2,3] = .ok a
        ∧ a.cmds = BuildAcc.cmds ⟨[], RectF.null, 0⟩
            ++ (outlierValues [1,2,3] 1 3).map
                (fun o => DrawCmd.marker (if true then ((0:ℚ), o) else (o, 0)) 10)
            ++ whiskerBoxCmds true 0 (4/5) 1 3 (percentile [1,2,3] 25)
                (percentile [1,2,3] 75) (percentile [1,2,3] 50) :=
  C2_outlier_partition IQR_WFunc true (4/5) defaultPen 10 0 0 0 0
    ⟨[], RectF.null, 0⟩ [1,2,3] 1 3 rfl eval_123_callWhisker

/-! ### Pixel padding across the sample loop -/

theorem effLoc_length {o : Option (List ℚ)} {n : ℕ} {loc : List ℚ}
    (h : effLoc o n = .ok loc) : loc.length = n := by
  cases o with
  | none =>
    rw [effLoc] at h
    injection h with h
    rw [← h, List.length_map, List.length_range]
  | some l =>
    rw [effLoc] at h
    by_cases hl : l.length = n
    · rw [if_neg (by simp [hl])] at h
      injection h with h
      rw [← h, hl]
    · rw [if_pos (by simp [hl])] at h
      exact absurd h (by simp)

/-- A successful `generatePicture` on sample data determines the resolved
locations, a successful loop run, and the recorded cache fields. -/
theorem generatePicture_ok_elim {st : ItemState} {px py : ℚ}
    {data : List (List ℚ)}
    (hdata : st.opts.data = some (.samples data))
    (hsucc : (generatePicture st px py).2 = none) :
    ∃ loc acc,
      effLoc st.opts.loc data.length = .ok loc
      ∧ buildLoop st.whiskerFunc st.opts.locAsX st.opts.outlier
          (st.opts.width.getD (4/5)) (st.opts.pen.getD defaultPen)
          (st.opts.symbolSize.getD 10)
          ((st.opts.pen.getD defaultPen).widthF * (7072/10000))
          (px * (7072/10000 * st.opts.symbolSize.getD 10))
          (py * (7072/10000 * st.opts.symbolSize.getD 10))
          ⟨[], RectF.null, 0⟩ (loc.zip data) = .ok acc
      ∧ (generatePicture st px py).1.pixelPadding = some acc.pixelPadding
      ∧ (generatePicture st px py).1.boxBounds = some acc.boxBounds
      ∧ (generatePicture st px py).1.picture = some acc.cmds
      ∧ loc.length = data.length := by
  simp only [generatePicture, hdata] at hsucc ⊢
  cases heff : effLoc st.opts.loc data.length with
  | error e =>
    simp [heff] at hsucc
  | ok loc =>
    simp only [heff] at hsucc ⊢
    cases hbl : buildLoop st.whiskerFunc st.opts.locAsX st.opts.outlier
        (st.opts.width.getD (4/5)) (st.opts.pen.getD defaultPen)
        (st.opts.symbolSize.getD 10)
        ((st.opts.pen.getD defaultPen).widthF * (7072/10000))
        (px * (7072/10000 * st.opts.symbolSize.getD 10))
        (py * (7072/10000 * st.opts.symbolSize.getD 10))
        ⟨[], RectF.null, 0⟩ (loc.zip data) with
    | error e =>
      simp [hbl] at hsucc
    | ok acc =>
      exact ⟨loc, acc, rfl, hbl, rfl, rfl, rfl, effLoc_length heff⟩

/-- With a cosmetic pen the loop's `pixelPadding` is the running maximum of the
constant `pw` over the samples. -/
theorem buildLoop_padding_cosmetic {wf : WFunc} {locAsX outlierOn : Bool}
    {width : ℚ} {pen : Pen} {ssize pw spx spy : ℚ} (hc : pen.isCosmetic = true) :
    ∀ (l : List (ℚ × List ℚ)) (acc a : BuildAcc),
      buildLoop wf locAsX outlierOn width pen ssize pw spx spy acc l = .ok a →
      a.pixelPadding
        = if l.isEmpty then acc.pixelPadding else max acc.pixelPadding pw := by
  intro l
  induction l with
  | nil =>
    intro acc a hok
    rw [buildLoop] at hok
    injection hok with h
    rw [← h]
    rfl
  | cons hd tl ih =>
    intro acc a hok
    obtain ⟨pos, ds⟩ := hd
    rw [buildLoop] at hok
    cases hps : processSample wf locAsX outlierOn width pen ssize pw spx spy acc pos ds with
    | error e =>
      rw [hps] at hok
      simp [bind, Except.bind] at hok
    | ok a1 =>
      rw [hps] at hok
      simp only [bind, Except.bind] at hok
      have h1 := processSample_padding hps
      rw [hc] at h1
      simp only [if_true] at h1
      have h2 := ih a1 a hok
      cases htl : tl.isEmpty with
      | true =>
        rw [htl] at h2
        simp only [if_true] at h2
        rw [h2, h1]
        simp [List.isEmpty_cons]
      | false =>
        rw [htl] at h2
        simp only [Bool.false_eq_true, if_false] at h2
        rw [h2, h1, max_assoc, max_self]
        simp [List.isEmpty_cons]

/-- With a non-cosmetic (geometric) pen the loop never touches `pixelPadding`. -/
theorem buildLoop_padding_geometric {wf : WFunc} {locAsX outlierOn : Bool}
    {width : ℚ} {pen : Pen} {ssize pw spx spy : ℚ} (hc : pen.isCosmetic = false) :
    ∀ (l : List (ℚ × List ℚ)) (acc a : BuildAcc),
      buildLoop wf locAsX outlierOn width pen ssize pw spx spy acc l = .ok a →
      a.pixelPadding = acc.pixelPadding := by
  intro l
  induction l with
  | nil =>
    intro acc a hok
    rw [buildLoop] at hok
    injection hok with h
    rw [← h]
  | cons hd tl ih =>
    intro acc a hok
    obtain ⟨pos, ds⟩ := hd
    rw [buildLoop] at hok
    cases hps : processSample wf locAsX outlierOn width pen ssize pw spx spy acc pos ds with
    | error e =>
      rw [hps] at hok
      simp [bind, Except.bind] at hok
    | ok a1 =>
      rw [hps] at hok
      simp only [bind, Except.bind] at hok
      have h1 := processSample_padding hps
      rw [hc] at h1
      simp only [Bool.false_eq_true, if_false] at h1
      rw [ih a1 a hok, h1]

/-- A successful `generatePicture` with at least one sample records
`pixelPadding = pen.widthF × 0.7072` for a cosmetic outline pen and `0` for a
geometric one. -/
theorem generatePicture_padding (st : ItemState) (pen : Pen)
    (data : List (List ℚ)) (px py : ℚ)
    (hdata : st.opts.data = some (.samples data))
    (hne : data ≠ [])
    (hpen : st.opts.pen = some pen)
    (hw : 0 ≤ pen.widthF)
    (hsucc : (generatePicture st px py).2 = none) :
    (generatePicture st px py).1.pixelPadding
      = some (if pen.cosmetic then pen.widthF * (7072/10000) else 0) := by
  have hpw : 0 ≤ pen.widthF * (7072/10000 : ℚ) := by positivity
  obtain ⟨loc, acc, heff, hbl, hpp, _, _, hlen⟩ := generatePicture_ok_elim hdata hsucc
  rw [hpen] at hbl
  simp only [Option.getD_some] at hbl
  have hzip : (loc.zip data).isEmpty = false := by
    rw [Bool.eq_false_iff]
    intro hcon
    have hlc := congrArg List.length (List.isEmpty_iff.mp hcon)
    rw [List.length_zip] at hlc
    simp only [List.length_nil] at hlc
    have : data.length = 0 := by omega
    exact hne (List.length_eq_zero.mp this)
  cases hcos : pen.cosmetic with
  | true =>
    have hc6 : Pen.isCosmetic pen = true := by simpa [Pen.isCosmetic] using hcos
    have hp := buildLoop_padding_cosmetic hc6 _ _ _ hbl
    rw [hzip] at hp
    simp only [Bool.false_eq_true, if_false] at hp
    rw [hpp, hp]
    simp [hcos, max_eq_right hpw]
  | false =>
    have hc6 : Pen.isCosmetic pen = false := by simpa [Pen.isCosmetic] using hcos
    have hp := buildLoop_padding_geometric hc6 _ _ _ hbl
    rw [hpp, hp]
    simp [hcos]

theorem eval_123_outliers : outlierValues [1,2,3] 1 3 = [] := by
  norm_num [outlierValues, List.filter]

theorem eval_c6_generate :
    (generatePicture c6State (1/100) (1/100)).2 = none
    ∧ (generatePicture c6State (1/100) (1/100)).1.boxBounds
        = some ⟨-2/5, 1, 4/5, 2⟩
    ∧ (generatePicture c6State (1/100) (1/100)).1.pixelPadding
        = some (14144/10000) := by
  have h1 := eval_123_callWhisker
  have h2 := eval_123_outliers
  refine ⟨?_, ?_, ?_⟩ <;>
    norm_num [generatePicture, c6State, defaultOpts, penW2, effLoc, buildLoop,
      processSample, h1, h2, bind, Except.bind, outlierBoundsUpd, sampleRect,
      RectF.unite, RectF.null, RectF.isNull, Pen.isCosmetic, List.range,
      List.range.loop, outlierMarkerCmds]

theorem eval_c6_boundingRect :
    boundingRect c6State (1/100) (1/100)
      = .ok (⟨-2/5 - 14144/1000000, 1 - 14144/1000000,
              4/5 + 2*(14144/1000000), 2 + 2*(14144/1000000)⟩,
          (generatePicture c6State (1/100) (1/100)).1, true) := by
  obtain ⟨hsucc, hbb, hpp⟩ := eval_c6_generate
  have hpic : c6State.picture.isNone = true := rfl
  simp only [boundingRect, hpic, if_true, hsucc, hpp, hbb]
  norm_num [RectF.adjusted]

/-- C6 (counterexample): with a cosmetic outline pen of width 2 the build
records `PixelPadding = 2 × 0.7072 = 1.4144` — the full stroke width times
0.7072 — not `2 × 0.7072 × 0.5 ≈ 0.7072` as the claim computes. -/
theorem C6_counterexample :
    (generatePicture c6State (1/100) (1/100)).1.pixelPadding = some (14144/10000)
    ∧ ¬ ((generatePicture c6State (1/100) (1/100)).1.pixelPadding
          = some (7072/10000)) := by
  obtain ⟨-, -, hpp⟩ := eval_c6_generate
  refine ⟨hpp, ?_⟩
  rw [hpp]
  intro hcon
  injection hcon with h
  norm_num at h

/-- C6 (amended): during geometry building `pw = pen.widthF() × 0.7072` (the
full stroke width times the diagonal factor). A cosmetic pen unions the
whisker-to-whisker rectangle unexpanded and feeds `pw` into PixelPadding via a
running maximum (so a successful build records `pen.widthF × 0.7072`); a
geometric pen expands the rectangle by `pw` on all sides and leaves
PixelPadding at zero. For a cosmetic pen of width 2 and pixel length 0.01,
PixelPadding = 1.4144 and `boundingRect` expands the raw bounds by
1.4144 × 0.01 on each axis. -/
theorem C6_pen_bounds_handling (st : ItemState) (pen : Pen)
    (data : List (List ℚ)) (px py : ℚ)
    (hdata : st.opts.data = some (.samples data))
    (hne : data ≠ [])
    (hpen : st.opts.pen = some pen)
    (hw : 0 ≤ pen.widthF)
    (hsucc : (generatePicture st px py).2 = none) :
    (generatePicture st px py).1.pixelPadding
      = some (if pen.cosmetic then pen.widthF * (7072/10000) else 0)
    ∧ (∀ (wf : WFunc) (locAsX outlierOn : Bool) (width ssize pw spx spy pos : ℚ)
        (acc a : BuildAcc) (ds : List ℚ) (lower upper : ℚ),
        callWhisker wf ds = .ok (lower, upper) →
        processSample wf locAsX outlierOn width pen ssize pw spx spy acc pos ds
          = .ok a →
        a.boxBounds = (if pen.cosmetic
          then (outlierBoundsUpd locAsX spx spy pos acc.boxBounds
              (if outlierOn then outlierValues ds lower upper else [])).unite
              (sampleRect locAsX width pos lower upper)
          else (outlierBoundsUpd locAsX spx spy pos acc.boxBounds
              (if outlierOn then outlierValues ds lower upper else [])).unite
              ((sampleRect locAsX width pos lower upper).adjusted
                (-pw) (-pw) pw pw))
        ∧ a.pixelPadding
            = (if pen.cosmetic then max acc.pixelPadding pw else acc.pixelPadding))
    ∧ (generatePicture c6State (1/100) (1/100)).1.pixelPadding = some (14144/10000)
    ∧ boundingRect c6State (1/100) (1/100)
        = .ok (⟨-2/5 - 14144/1000000, 1 - 14144/1000000,
                4/5 + 2*(14144/1000000), 2 + 2*(14144/1000000)⟩,
            (generatePicture c6State (1/100) (1/100)).1, true) := by
  refine ⟨generatePicture_padding st pen data px py hdata hne hpen hw hsucc, ?_,
    eval_c6_generate.2.2, eval_c6_boundingRect⟩
  intro wf locAsX outlierOn width ssize pw spx spy pos acc a ds lower upper hwf hok
  obtain ⟨l', u', hc, _, ha⟩ := processSample_ok_elim hok
  rw [hwf] at hc
  injection hc with hc
  cases hc
  exact ⟨by simp [ha, Pen.isCosmetic], by simp [ha, Pen.isCosmetic]⟩

/-- Witness for C6 at the concrete width-2 cosmetic pen item. -/
theorem C6_pen_bounds_handling_witness :
    (generatePicture c6State (1/100) (1/100)).1.pixelPadding
      = some (if penW2.cosmetic then penW2.widthF * (7072/10000) else 0)
    ∧ (∀ (wf : WFunc) (locAsX outlierOn : Bool) (width ssize pw spx spy pos : ℚ)
        (acc a : BuildAcc) (ds : List ℚ) (lower upper : ℚ),
        callWhisker wf ds = .ok (lower, upper) →
        processSample wf locAsX outlierOn width penW2 ssize pw spx spy acc pos ds
          = .ok a →
        a.boxBounds = (if penW2.cosmetic
          then (outlierBoundsUpd locAsX spx spy pos acc.boxBounds
              (if outlierOn then outlierValues ds lower upper else [])).unite
              (sampleRect locAsX width pos lower upper)
          else (outlierBoundsUpd locAsX spx spy pos acc.boxBounds
              (if outlierOn then outlierValues ds lower upper else [])).unite
              ((sampleRect locAsX width pos lower upper).adjusted
                (-pw) (-pw) pw pw))
        ∧ a.pixelPadding
            = (if penW2.cosmetic then max acc.pixelPadding pw else acc.pixelPadding))
    ∧ (generatePicture c6State (1/100) (1/100)).1.pixelPadding = some (14144/10000)
    ∧ boundingRect c6State (1/100) (1/100)
        = .ok (⟨-2/5 - 14144/1000000, 1 - 14144/1000000,
                4/5 + 2*(14144/1000000), 2 + 2*(14144/1000000)⟩,
            (generatePicture c6State (1/100) (1/100)).1, true) :=
  C6_pen_bounds_handling c6State penW2 [[1, 2, 3]] (1/100) (1/100) rfl
    (by decide) rfl (by norm_num [penW2]) eval_c6_generate.1

/-- Every run of `generatePicture` leaves a present (possibly empty) picture,
whatever branch it takes. -/
theorem generatePicture_picture_isNone (st : ItemState) (px py : ℚ) :
    (generatePicture st px py).1.picture.isNone = false := by
  rw [generatePicture]
  split
  · rfl
  · rfl
  · split
    · rfl
    · dsimp only
      split
      · rfl
      · rfl

/-- C9: a second `boundingRect()` call with no intervening mutation returns the
identical rectangle and does not rebuild the cache (the rebuild flag is
`false`). -/
theorem C9_boundingRect_idempotent (st : ItemState) (px py : ℚ) (r : RectF)
    (st1 : ItemState) (b : Bool)
    (h : boundingRect st px py = .ok (r, st1, b)) :
    boundingRect st1 px py = .ok (r, st1, false) := by
  rw [boundingRect] at h
  cases hpic : st.picture with
  | some p =>
    rw [hpic] at h
    simp only [Option.isNone_some, Bool.false_eq_true, if_false] at h
    cases hpp : st.pixelPadding with
    | none => rw [hpp] at h; exact absurd h (by simp)
    | some pxPad =>
      rw [hpp] at h
      cases hbb : st.boxBounds with
      | none => rw [hbb] at h; exact absurd h (by simp)
      | some bb =>
        rw [hbb] at h
        simp only [Except.ok.injEq, Prod.mk.injEq] at h
        obtain ⟨hr, hst1, -⟩ := h
        subst hst1
        rw [boundingRect]
        simp only [hpic, Option.isNone_some, Bool.false_eq_true, if_false,
          hpp, hbb, hr]
  | none =>
    rw [hpic] at h
    simp only [Option.isNone_none, if_true] at h
    cases hsucc : (generatePicture st px py).2 with
    | some e => rw [hsucc] at h; exact absurd h (by simp)
    | none =>
      rw [hsucc] at h
      cases hpp : (generatePicture st px py).1.pixelPadding with
      | none => rw [hpp] at h; exact absurd h (by simp)
      | some pxPad =>
        rw [hpp] at h
        cases hbb : (generatePicture st px py).1.boxBounds with
        | none => rw [hbb] at h; exact absurd h (by simp)
        | some bb =>
          rw [hbb] at h
          simp only [Except.ok.injEq, Prod.mk.injEq] at h
          obtain ⟨hr, hst1, -⟩ := h
          have hnone : st1.picture.isNone = false := by
            rw [← hst1]
            exact generatePicture_picture_isNone st px py
          rw [boundingRect, hnone]
          subst hst1
          simp only [Bool.false_eq_true, if_false, hpp, hbb, hr]

/-- Witness for C9 on a concrete item with a warm cache. -/
theorem C9_boundingRect_idempotent_witness :
    boundingRect stWithPicture 0 0
      = .ok (⟨0, 1, 4/5, 2⟩, stWithPicture, false) := by
  have h0 : boundingRect stWithPicture 0 0
      = .ok ((⟨0, 1, 4/5, 2⟩ : RectF).adjusted (-0) (-0) 0 0, stWithPicture, false) := by
    rw [boundingRect]
    norm_num [stWithPicture, RectF.adjusted]
  have h1 := C9_boundingRect_idempotent stWithPicture 0 0 _ _ _ h0
  have hadj : (⟨0, 1, 4/5, 2⟩ : RectF).adjusted (-0) (-0) 0 0 = ⟨0, 1, 4/5, 2⟩ := by
    norm_num [RectF.adjusted]
  rw [hadj] at h1
  exact h1

/-- C8: with outliers hidden, `dataBounds` along the value axis (axis 1 when
`locAsX`) is `[min of whisker lowers, max of whisker uppers]` — a function of
the whisker pairs only, independent of the outlier values present; with
outliers shown the per-sample data extrema are used instead; the location axis
is the `loc` extent padded by half the box width. -/
theorem C8_dataBounds (st : ItemState) (data : List (List ℚ)) (locs : List ℚ)
    (pairs : List (ℚ × ℚ)) (mn mx lmin lmax : ℚ)
    (hdata : st.opts.data = some (.samples data))
    (hX : st.opts.locAsX = true)
    (hlocs : locs = (match st.opts.loc with
      | some l => l
      | none => (List.range data.length).map (fun i : ℕ => (i : ℚ))))
    (hlmin : locs.min? = some lmin) (hlmax : locs.max? = some lmax)
    (hmn : (pairs.map Prod.fst).min? = some mn)
    (hmx : (pairs.map Prod.snd).max? = some mx) :
    (st.opts.outlier = false →
      data.mapM (fun ds => callWhisker st.whiskerFunc ds) = .ok pairs →
      dataBounds st 1 = .ok (mn, mx)
      ∧ dataBounds st 0 = .ok (lmin - (st.opts.width.getD (4/5))/2,
          lmax + (st.opts.width.getD (4/5))/2))
    ∧ (st.opts.outlier = true →
      data.mapM (fun ds =>
        (match ds.min?, ds.max? with
        | some lo, some hi => Except.ok (lo, hi)
        | _, _ => Except.error PyExc.valueError : Except PyExc (ℚ × ℚ))) = .ok pairs →
      dataBounds st 1 = .ok (mn, mx)
      ∧ dataBounds st 0 = .ok (lmin - (st.opts.width.getD (4/5))/2,
          lmax + (st.opts.width.getD (4/5))/2)) := by
  constructor
  · intro houtlier hmapM
    have hcdb : calculateDataBounds st
        = .ok ⟨lmin - (st.opts.width.getD (4/5))/2, mn,
            (lmax + (st.opts.width.getD (4/5))/2) - (lmin - (st.opts.width.getD (4/5))/2),
            mx - mn⟩ := by
      rw [calculateDataBounds]
      simp only [hdata, houtlier, Bool.false_eq_true, if_false, hmapM, bind,
        Except.bind, hmn, hmx, ← hlocs, hlmin, hlmax, hX, if_true]
    rw [dataBounds, dataBounds, hcdb]
    refine ⟨?_, ?_⟩ <;>
      simp [bind, Except.bind, RectF.top, RectF.bottom, RectF.left, RectF.right]
  · intro houtlier hmapM
    have hcdb : calculateDataBounds st
        = .ok ⟨lmin - (st.opts.width.getD (4/5))/2, mn,
            (lmax + (st.opts.width.getD (4/5))/2) - (lmin - (st.opts.width.getD (4/5))/2),
            mx - mn⟩ := by
      rw [calculateDataBounds]
      simp only [hdata, houtlier, if_true, hmapM, bind,
        Except.bind, hmn, hmx, ← hlocs, hlmin, hlmax, hX]
    rw [dataBounds, dataBounds, hcdb]
    refine ⟨?_, ?_⟩ <;>
      simp [bind, Except.bind, RectF.top, RectF.bottom, RectF.left, RectF.right]

/-- Witness for C8 on a one-sample item (whiskers and extrema both `(1, 3)`),
outliers shown. -/
theorem C8_dataBounds_witness :
    (stWithPicture.opts.outlier = false →
      [[1,2,3]].mapM (fun ds => callWhisker stWithPicture.whiskerFunc ds)
        = .ok [((1:ℚ), (3:ℚ))] →
      dataBounds stWithPicture 1 = .ok (1, 3)
      ∧ dataBounds stWithPicture 0
          = .ok (0 - (stWithPicture.opts.width.getD (4/5))/2,
              0 + (stWithPicture.opts.width.getD (4/5))/2))
    ∧ (stWithPicture.opts.outlier = true →
      ([[1,2,3]] : List (List ℚ)).mapM (fun ds : List ℚ =>
        (match ds.min?, ds.max? with
        | some lo, some hi => Except.ok (lo, hi)
        | _, _ => Except.error PyExc.valueError : Except PyExc (ℚ × ℚ))) = .ok [(1, 3)] →
      dataBounds stWithPicture 1 = .ok (1, 3)
      ∧ dataBounds stWithPicture 0
          = .ok (0 - (stWithPicture.opts.width.getD (4/5))/2,
              0 + (stWithPicture.opts.width.getD (4/5))/2)) :=
  C8_dataBounds stWithPicture [[1,2,3]] [0] [(1, 3)] 1 3 0 0 rfl rfl
    (by rfl) rfl rfl rfl rfl

end Boxplot
